import Mathlib

/-
  Verification of the earthquake-feed cache-and-proximity-query subsystem
  (the quake/news serverless handlers).  JSON values are modelled with
  rational numbers for the numeric literals that travel through request
  bodies and feed payloads; the haversine computation itself is carried
  out over the reals.  Network effects are modelled by passing the outcome
  of each outbound call (feed fetch, geocode lookup) as an explicit input
  to the state-transition functions.
-/

namespace AftershockQuake

/-- A JSON value.  Numeric literals are modelled as rationals. -/
inductive Json where
  | null
  | bool (b : Bool)
  | num (x : ℚ)
  | str (s : String)
  | arr (xs : List Json)
  | obj (fields : List (String × Json))

/-- JavaScript truthiness of a value. -/
def jsTruthy : Json → Bool
  | Json.null => false
  | Json.bool b => b
  | Json.num x => x != 0
  | Json.str s => s != ""
  | Json.arr _ => true
  | Json.obj _ => true

/-- Property access `v.k`; `none` models the JS `undefined` result. -/
def getField : Json → String → Option Json
  | Json.obj fs, k => fs.lookup k
  | _, _ => none

/-- JS `a && b` at the value level (`none` = undefined, which is falsy). -/
def jsAnd (a b : Option Json) : Option Json :=
  match a with
  | none => none
  | some v => if jsTruthy v then b else some v

/-- JS `a || b` at the value level (`none` = undefined, which is falsy). -/
def jsOr (a b : Option Json) : Option Json :=
  match a with
  | none => b
  | some v => if jsTruthy v then some v else b

/-- JS indexing `v[i]`: array element, or the string-keyed field of an
    object; anything else yields undefined. -/
def jsIndex : Json → Nat → Option Json
  | Json.arr xs, i => xs.get? i
  | Json.obj fs, i => fs.lookup (toString i)
  | _, _ => none

/-- Element `i` of a coordinate container when it is a number
    (`typeof coords[i] === "number"`), else `none` (rendered as null). -/
def jsNumAt (v : Json) (i : Nat) : Option ℚ :=
  match jsIndex v i with
  | some (Json.num x) => some x
  | _ => none

/-- JS `const coords = (f.geometry && f.geometry.coordinates) || [];` -/
def coordsOf (f : Json) : Json :=
  (jsOr (jsAnd (getField f "geometry")
               ((getField f "geometry").bind (fun g => getField g "coordinates")))
        (some (Json.arr []))).getD Json.null

/-- The id field: `f.id || (f.properties && f.properties.code) || null` -/
def eventIdOf (f : Json) : Json :=
  (jsOr (jsOr (getField f "id")
              (jsAnd (getField f "properties")
                     ((getField f "properties").bind (fun p => getField p "code"))))
        (some Json.null)).getD Json.null

/-- The timeMs field: `f.properties && typeof f.properties.time === "number" ? f.properties.time : null` -/
def timeMsOf (f : Json) : Option ℚ :=
  match getField f "properties" with
  | some p =>
      if jsTruthy p then
        match getField p "time" with
        | some (Json.num x) => some x
        | _ => none
      else none
  | none => none

/-- The timeISO field: `timeMs ? new Date(timeMs).toISOString() : null`; the ISO rendering is
    abstracted as the underlying instant (an injective rendering). -/
def timeISOOf (f : Json) : Option ℚ :=
  match timeMsOf f with
  | some x => if x != 0 then some x else none
  | none => none

/-- The mag field: `f.properties ? f.properties.mag : null` -/
def magOf (f : Json) : Json :=
  match getField f "properties" with
  | some p => if jsTruthy p then (getField p "mag").getD Json.null else Json.null
  | none => Json.null

/-- The place field: `f.properties ? f.properties.place : null` -/
def placeOf (f : Json) : Json :=
  match getField f "properties" with
  | some p => if jsTruthy p then (getField p "place").getD Json.null else Json.null
  | none => Json.null

/-- The resolved query center; a coordinate is `none` when `parseFloat`
    produced NaN (a NaN distance fails every `≤` comparison, exactly as a
    `none` distance does below). -/
structure Center where
  lat : Option ℚ
  lon : Option ℚ

/-- The simplified view of one raw feed feature. -/
structure Event where
  id : Json
  lat : Option ℚ
  lon : Option ℚ
  depth : Option ℚ
  timeMs : Option ℚ
  timeISO : Option ℚ
  mag : Json
  place : Json
  distanceKm : Option ℝ

/-- The `base` object built by `simplifyFeature` before the optional
    `distanceKm` is attached. -/
def baseEvent (f : Json) : Event :=
  { id := eventIdOf f
    lat := jsNumAt (coordsOf f) 1
    lon := jsNumAt (coordsOf f) 0
    depth := jsNumAt (coordsOf f) 2
    timeMs := timeMsOf f
    timeISO := timeISOOf f
    mag := magOf f
    place := placeOf f
    distanceKm := none }

/-- Degrees to radians, `(n * Math.PI) / 180`. -/
noncomputable def toRad (n : ℝ) : ℝ := n * Real.pi / 180

/-- JS `Math.atan2 y x`. -/
noncomputable def atan2 (y x : ℝ) : ℝ :=
  if 0 < x then Real.arctan (y / x)
  else if x < 0 then
    (if 0 ≤ y then Real.arctan (y / x) + Real.pi else Real.arctan (y / x) - Real.pi)
  else if 0 < y then Real.pi / 2
  else if y < 0 then -(Real.pi / 2)
  else 0

/-- The intermediate `a` of `haversineKm`. -/
noncomputable def haversineA (lat1 lon1 lat2 lon2 : ℝ) : ℝ :=
  Real.sin (toRad (lat2 - lat1) / 2) * Real.sin (toRad (lat2 - lat1) / 2) +
    Real.cos (toRad lat1) * Real.cos (toRad lat2) *
      (Real.sin (toRad (lon2 - lon1) / 2) * Real.sin (toRad (lon2 - lon1) / 2))

/-- The helper `haversineKm(lat1, lon1, lat2, lon2)`: haversine distance on a sphere
    of radius 6371 km, `R * (2 * Math.atan2(Math.sqrt(a), Math.sqrt(1-a)))`. -/
noncomputable def haversineKm (lat1 lon1 lat2 lon2 : ℝ) : ℝ :=
  6371 * (2 * atan2 (Real.sqrt (haversineA lat1 lon1 lat2 lon2))
                    (Real.sqrt (1 - haversineA lat1 lon1 lat2 lon2)))

/-- The value `haversineKm(center.lat, center.lon, lat, lon)`; `none` stands for the
    NaN produced by a NaN center coordinate (observationally identical in
    the only consumer, the `≤ radiusKm` filter, which NaN always fails). -/
noncomputable def centerDist (c : Center) (la lo : ℚ) : Option ℝ :=
  match c.lat, c.lon with
  | some clat, some clon => some (haversineKm (clat : ℝ) (clon : ℝ) (la : ℝ) (lo : ℝ))
  | _, _ => none

/-- JS `simplifyFeature(f, center)`: the base object, with `distanceKm`
    attached when a center is supplied and both coordinates are present. -/
noncomputable def simplifyFeature (f : Json) (center : Option Center) : Event :=
  match center, (baseEvent f).lat, (baseEvent f).lon with
  | some c, some la, some lo => { baseEvent f with distanceKm := centerDist c la lo }
  | _, _, _ => baseEvent f

/-- A fetch-failure record: `{ message: err.message, time: new Date() }`.
    Times are modelled as rational instants. -/
structure FetchErr where
  message : String
  time : ℚ
deriving DecidableEq

/-- The module-level mutable cache: `cachedData`, `lastFetched`, `lastError`. -/
structure CacheState where
  cachedData : Option Json
  lastFetched : Option ℚ
  lastError : Option FetchErr

/-- The `res.ok` flag of the WHATWG fetch API: status in the 200–299 range. -/
def statusOk (s : Nat) : Bool := decide (200 ≤ s) && decide (s < 300)

/-- Outcome of one outbound call to the USGS feed endpoint: the `fetch`
    builtin is unavailable, the transport fails (the promise rejects), or a
    response arrives whose body either parses as JSON or fails to parse. -/
inductive FetchOutcome where
  | noFetch
  | transportFail (msg : String)
  | response (status : Nat) (body : Except String Json)

/-- Transition of `fetchFeed()`: on success replace the snapshot, stamp `lastFetched`
    and clear `lastError`; on any failure record `lastError` and leave the
    rest of the state alone. -/
def fetchFeed (st : CacheState) (o : FetchOutcome) (now : ℚ) : CacheState :=
  match o with
  | FetchOutcome.noFetch =>
      { st with lastError := some ⟨"fetch is not available in this runtime", now⟩ }
  | FetchOutcome.transportFail m =>
      { st with lastError := some ⟨m, now⟩ }
  | FetchOutcome.response s b =>
      if statusOk s then
        match b with
        | Except.ok j => { cachedData := some j, lastFetched := some now, lastError := none }
        | Except.error m => { st with lastError := some ⟨m, now⟩ }
      else
        { st with lastError := some ⟨"USGS responded with status " ++ toString s, now⟩ }

/-- Does this outcome make `fetchFeed` take its failure path? -/
def outcomeFails : FetchOutcome → Bool
  | FetchOutcome.noFetch => true
  | FetchOutcome.transportFail _ => true
  | FetchOutcome.response s (Except.ok _) => !statusOk s
  | FetchOutcome.response _ (Except.error _) => true

/-- The `err.message` that `fetchFeed` records for a failing outcome. -/
def failMsg : FetchOutcome → String
  | FetchOutcome.noFetch => "fetch is not available in this runtime"
  | FetchOutcome.transportFail m => m
  | FetchOutcome.response s (Except.error m) =>
      if statusOk s then m else "USGS responded with status " ++ toString s
  | FetchOutcome.response s (Except.ok _) =>
      if statusOk s then "" else "USGS responded with status " ++ toString s

/-- HTTP request method, as the handlers dispatch on it. -/
inductive Method where
  | GET
  | POST
  | OPTIONS
  | other

/-- Response of the GET-only feed handler. -/
inductive GetResp where
  | options
  | methodNotAllowed
  | ok (lastFetched : Option ℚ) (data : Json)
  | unavailable (lastError : Option FetchErr)

/-- HTTP status code of a GET-only handler response. -/
def GetResp.statusCode : GetResp → Nat
  | GetResp.options => 200
  | GetResp.methodNotAllowed => 405
  | GetResp.ok _ _ => 200
  | GetResp.unavailable _ => 503

/-- JS truthiness of the `cachedData` slot, as the source's emptiness test
    `if (!cachedData)` sees it: `none` models the initial null, and a
    cached falsy JSON payload (bare 0, "", false, null) also counts as
    empty. -/
def cacheTruthy : Option Json → Bool
  | some v => jsTruthy v
  | none => false

/-- The GET-only feed handler: serve the cached snapshot, attempting one
    awaited on-demand refresh when the cache is empty (`!cachedData`, a
    truthiness test). -/
def handlerGet (m : Method) (st : CacheState) (o : FetchOutcome) (now : ℚ) :
    CacheState × GetResp :=
  match m with
  | Method.OPTIONS => (st, GetResp.options)
  | Method.GET =>
      if cacheTruthy st.cachedData then
        (st, GetResp.ok st.lastFetched (st.cachedData.getD Json.null))
      else
        let st2 := fetchFeed st o now
        if cacheTruthy st2.cachedData then
          (st2, GetResp.ok st2.lastFetched (st2.cachedData.getD Json.null))
        else (st2, GetResp.unavailable st2.lastError)
  | _ => (st, GetResp.methodNotAllowed)

/-- Digit run of a character list: the digits read and the rest. -/
def digitsToNat (ds : List Char) : Nat :=
  ds.foldl (fun acc c => acc * 10 + (c.toNat - 48)) 0

/-- JS `parseFloat` on a string, for the plain decimal forms the geocoder
    returns: optional leading whitespace, optional sign, digits with an
    optional fraction; the longest valid prefix is parsed and trailing
    characters are ignored.  `none` models NaN.  (Exponent forms are
    outside the model.) -/
def parseFloatStr (s : String) : Option ℚ :=
  let cs := s.toList.dropWhile (fun c => c == ' ' || c == '\t' || c == '\n' || c == '\r')
  let signAndRest : ℚ × List Char :=
    match cs with
    | '-' :: rest => (-1, rest)
    | '+' :: rest => (1, rest)
    | _ => (1, cs)
  let ip := signAndRest.2.takeWhile Char.isDigit
  let cs2 := signAndRest.2.dropWhile Char.isDigit
  let fp : List Char :=
    match cs2 with
    | '.' :: rest => rest.takeWhile Char.isDigit
    | _ => []
  if ip.isEmpty && fp.isEmpty then none
  else some (signAndRest.1 * ((digitsToNat ip : ℚ) + (digitsToNat fp : ℚ) / (10 ^ fp.length)))

/-- JS `parseFloat` applied to a field of the geocoder payload: numbers
    parse to themselves, strings through `parseFloatStr`; other values
    (which stringify to non-numeric text) give NaN, modelled `none`. -/
def parseFloatJ : Option Json → Option ℚ
  | some (Json.num x) => some x
  | some (Json.str s) => parseFloatStr s
  | _ => none

/-- The postal code value, `(body && (body.postalCode || body.postal_code || body.postal)) || null` -/
def postalOf (body : Json) : Json :=
  (jsOr (jsAnd (some body)
               (jsOr (jsOr (getField body "postalCode") (getField body "postal_code"))
                     (getField body "postal")))
        (some Json.null)).getD Json.null

/-- Is this value the JSON null?  (`postalOf` normalises every falsy
    chain to null, so `!postalCode` is exactly this test.) -/
def isNullJson : Json → Bool
  | Json.null => true
  | _ => false

/-- The effective radius: `body && typeof body.radiusKm === "number" ?
    body.radiusKm : body && typeof body.radius_km === "number" ?
    body.radius_km : 100`. -/
def radiusOf (body : Json) : ℚ :=
  if jsTruthy body then
    match getField body "radiusKm" with
    | some (Json.num x) => x
    | _ =>
        match getField body "radius_km" with
        | some (Json.num y) => y
        | _ => 100
  else 100

/-- Extraction `(cachedData.features || [])` followed by `.map`: a falsy `features`
    yields the empty list, an array yields its elements, and a truthy
    non-array raises a TypeError that the surrounding catch turns into a
    502 — modelled as the error case. -/
def featuresExtract (cd : Json) : Except String (List Json) :=
  match jsOr (getField cd "features") (some (Json.arr [])) with
  | some (Json.arr xs) => Except.ok xs
  | _ => Except.error "cachedData.features.map is not a function"

open Classical in
/-- The filter step `typeof f.distanceKm === "number" && f.distanceKm <= radiusKm`
    (a NaN or absent distance fails it). -/
noncomputable def distOk (d : Option ℝ) (r : ℚ) : Bool :=
  match d with
  | some x => decide (x ≤ (r : ℝ))
  | none => false

/-- The pipeline `(cachedData.features || []).map(f => simplifyFeature(f, center))
      .filter(f => f.lat != null && f.lon != null &&
                   typeof f.distanceKm === "number" && f.distanceKm <= radiusKm)` -/
noncomputable def proximityResults (features : List Json) (center : Center) (r : ℚ) :
    List Event :=
  (features.map (fun f => simplifyFeature f (some center))).filter
    (fun e => e.lat.isSome && e.lon.isSome && distOk e.distanceKm r)

/-- Outcome of one outbound call to the Nominatim geocoding service. -/
inductive GeoOutcome where
  | transportFail (msg : String)
  | response (status : Nat) (body : Except String Json)

/-- Response of the combined GET/POST feed handler. -/
inductive PostResp where
  | options
  | methodNotAllowed
  | badRequest (details : String)
  | refreshed (lastFetched : Option ℚ) (data : Option Json)
  | notFound
  | unavailable (lastError : Option FetchErr)
  | results (postalCode : Json) (center : Center) (radiusKm : ℚ)
      (lastFetched : Option ℚ) (count : Nat) (results : List Event)
  | badGateway (details : String)

/-- HTTP status code of a GET/POST handler response. -/
def PostResp.statusCode : PostResp → Nat
  | PostResp.options => 200
  | PostResp.methodNotAllowed => 405
  | PostResp.badRequest _ => 400
  | PostResp.refreshed _ _ => 200
  | PostResp.notFound => 404
  | PostResp.unavailable _ => 503
  | PostResp.results _ _ _ _ _ _ => 200
  | PostResp.badGateway _ => 502

/-- The combined GET/POST feed handler.  `parsed` is the outcome of
    `parseJsonBody` (an unparsable body is its error case), `fo` the
    outcome the on-demand `fetchFeed()` would see, and `go` the outcome of
    the geocode call.  The second component is `none` when the handler
    finishes without ever sending a response — which is what the source
    does for a GET request: after the method check only a POST branch
    exists, so control falls off the end of the function. -/
noncomputable def handlerPost (m : Method) (parsed : Except String Json)
    (st : CacheState) (fo : FetchOutcome) (go : GeoOutcome) (now : ℚ) :
    CacheState × Option PostResp :=
  match m with
  | Method.OPTIONS => (st, some PostResp.options)
  | Method.other => (st, some PostResp.methodNotAllowed)
  | Method.GET => (st, none)
  | Method.POST =>
    match parsed with
    | Except.error msg => (st, some (PostResp.badRequest msg))
    | Except.ok body =>
      let postal := postalOf body
      let radius := radiusOf body
      let st1 := if cacheTruthy st.cachedData then st else fetchFeed st fo now
      if isNullJson postal then
        (st1, some (PostResp.refreshed st1.lastFetched st1.cachedData))
      else
        match go with
        | GeoOutcome.transportFail msg => (st1, some (PostResp.badGateway msg))
        | GeoOutcome.response s gbody =>
          if statusOk s then
            match gbody with
            | Except.error msg => (st1, some (PostResp.badGateway msg))
            | Except.ok gj =>
              match gj with
              | Json.arr (loc :: _) =>
                let center : Center :=
                  ⟨parseFloatJ (getField loc "lat"), parseFloatJ (getField loc "lon")⟩
                if cacheTruthy st1.cachedData then
                  match featuresExtract (st1.cachedData.getD Json.null) with
                  | Except.error msg => (st1, some (PostResp.badGateway msg))
                  | Except.ok fs =>
                    let rs := proximityResults fs center radius
                    (st1, some (PostResp.results postal center radius
                                  st1.lastFetched rs.length rs))
                else (st1, some (PostResp.unavailable st1.lastError))
              | _ => (st1, some PostResp.notFound)
          else
            (st1, some (PostResp.badGateway ("Geocode failed with status " ++ toString s)))

/-- Did the geocoding service return zero matches?  (A success status
    whose JSON body is the empty array.) -/
def geoZeroMatches : GeoOutcome → Bool
  | GeoOutcome.response s (Except.ok (Json.arr [])) => statusOk s
  | _ => false

/-- Was the geocoding service unreachable, or did it answer with a
    non-success status? -/
def geoUpstream : GeoOutcome → Bool
  | GeoOutcome.transportFail _ => true
  | GeoOutcome.response s _ => !statusOk s

/-- Modelled from the spec: one feature of the expected feed schema — a
    `geometry.coordinates` 3-tuple of numbers and a `properties` object
    carrying `mag`, `place`, a numeric `time`, and an identifying `code`.
    The source performs no such validation; this predicate follows the
    spec's description of the upstream feed. -/
def isFeatureShape (f : Json) : Bool :=
  (match getField f "geometry" with
   | some g =>
       (match getField g "coordinates" with
        | some (Json.arr [Json.num _, Json.num _, Json.num _]) => true
        | _ => false)
   | none => false) &&
  (match getField f "properties" with
   | some p =>
       (match getField p "time" with
        | some (Json.num _) => true
        | _ => false) &&
       (getField p "mag").isSome && (getField p "place").isSome &&
       (getField p "code").isSome
   | none => false)

/-- Modelled from the spec: the expected feed schema — a feature
    collection, i.e. an object whose `features` field is an array of
    features of the expected shape.  The source performs no such
    validation (it only requires the body to parse as JSON). -/
def matchesFeedSchema (j : Json) : Bool :=
  match getField j "features" with
  | some (Json.arr fs) => fs.all isFeatureShape
  | _ => false

/-- The radius rule exactly as claim C4 states it: the supplied `radiusKm`
    when it is numeric and strictly greater than 0, and the default 100 in
    every other case. -/
def radiusClaimedRule (body : Json) : ℚ :=
  match getField body "radiusKm" with
  | some (Json.num x) => if 0 < x then x else 100
  | _ => 100

/-- The amended radius rule: a numeric `radiusKm` is used exactly as
    supplied — zero and negative values included — otherwise a numeric
    `radius_km` is used as supplied, and only otherwise does the default
    100 apply. -/
def radiusAmendedRule (body : Json) : ℚ :=
  match getField body "radiusKm" with
  | some (Json.num x) => x
  | _ =>
      match getField body "radius_km" with
      | some (Json.num y) => y
      | _ => 100

open Classical in
/-- The result set as claim C1 describes it: the events of the snapshot,
    in the snapshot's internal order, that have both coordinates present
    and whose haversine distance from the resolved center is at most the
    effective radius, each extended with its computed `distanceKm`. -/
noncomputable def specProximityResults (features : List Json) (clat clon r : ℚ) :
    List Event :=
  (features.map (fun f => simplifyFeature f none)).filterMap (fun e =>
    match e.lat, e.lon with
    | some la, some lo =>
        if haversineKm (clat : ℝ) (clon : ℝ) (la : ℝ) (lo : ℝ) ≤ (r : ℝ) then
          some { e with
                 distanceKm := some (haversineKm (clat : ℝ) (clon : ℝ) (la : ℝ) (lo : ℝ)) }
        else none
    | _, _ => none)

/-- A tiny feed payload used to instantiate theorems at concrete inputs. -/
def quakeFeedW : Json := Json.obj [("features", Json.arr [])]

/-- A raw feature whose coordinate array has only two elements. -/
def featureTwoCoords : Json :=
  Json.obj [("geometry", Json.obj [("coordinates", Json.arr [Json.num 1, Json.num 2])])]

/-! Theorems -/

theorem haversineA_self (l m : ℝ) : haversineA l m l m = 0 := by
  unfold haversineA toRad
  simp [sub_self]

theorem haversineA_symm (a b c d : ℝ) : haversineA a b c d = haversineA c d a b := by
  unfold haversineA toRad
  have h1 : (a - c) * Real.pi / 180 / 2 = -((c - a) * Real.pi / 180 / 2) := by ring
  have h2 : (b - d) * Real.pi / 180 / 2 = -((d - b) * Real.pi / 180 / 2) := by ring
  rw [h1, h2, Real.sin_neg, Real.sin_neg]
  ring

theorem fetchFeed_fail (st : CacheState) (o : FetchOutcome) (now : ℚ)
    (h : outcomeFails o = true) :
    fetchFeed st o now = { st with lastError := some ⟨failMsg o, now⟩ } := by
  rcases o with _ | m | ⟨s, b⟩
  · rfl
  · rfl
  · rcases b with m | j
    · cases hs : statusOk s
      · simp [fetchFeed, failMsg, hs]
      · simp [fetchFeed, failMsg, hs]
    · cases hs : statusOk s
      · simp [fetchFeed, failMsg, hs]
      · exfalso
        simp [outcomeFails, hs] at h

theorem fetchFeed_success (st : CacheState) (s : Nat) (j : Json) (now : ℚ)
    (hs : statusOk s = true) :
    fetchFeed st (FetchOutcome.response s (Except.ok j)) now =
      { cachedData := some j, lastFetched := some now, lastError := none } := by
  simp [fetchFeed, hs]

theorem handlerGet_with_snapshot (st : CacheState) (d : Json) (o : FetchOutcome)
    (now : ℚ) (h : st.cachedData = some d) (ht : jsTruthy d = true) :
    handlerGet Method.GET st o now = (st, GetResp.ok st.lastFetched d) := by
  simp [handlerGet, cacheTruthy, h, ht]

/-- C2: a failed refresh leaves the stored snapshot (and its fetch
    timestamp) completely untouched, records the new failure's message and
    time in `lastError`, and a subsequent plain GET still serves the prior
    stale snapshot with status 200.  A stored snapshot is a truthy payload
    (the source's `!cachedData` emptiness test is a truthiness test, and
    every actual feed snapshot is a JSON object, which is always truthy);
    the untouched-state and `lastError` conjuncts hold for any cached
    payload whatsoever. -/
theorem C2_failed_refresh_keeps_snapshot :
    ∀ (st : CacheState) (o : FetchOutcome) (now : ℚ) (d : Json),
      outcomeFails o = true →
      st.cachedData = some d →
      (fetchFeed st o now).cachedData = some d ∧
      (fetchFeed st o now).lastFetched = st.lastFetched ∧
      (fetchFeed st o now).lastError = some ⟨failMsg o, now⟩ ∧
      (jsTruthy d = true →
        ∀ (o2 : FetchOutcome) (now2 : ℚ),
          handlerGet Method.GET (fetchFeed st o now) o2 now2 =
            (fetchFeed st o now, GetResp.ok (fetchFeed st o now).lastFetched d) ∧
          GetResp.statusCode (GetResp.ok (fetchFeed st o now).lastFetched d) = 200) := by
  intro st o now d hfail hcached
  rw [fetchFeed_fail st o now hfail]
  refine ⟨hcached, rfl, rfl, ?_⟩
  intro ht o2 now2
  exact ⟨handlerGet_with_snapshot _ d o2 now2 hcached ht, rfl⟩

theorem C2_failed_refresh_keeps_snapshot_witness :
    (fetchFeed ⟨some quakeFeedW, some 5, none⟩ (FetchOutcome.transportFail "boom") 7).cachedData
        = some quakeFeedW ∧
    (fetchFeed ⟨some quakeFeedW, some 5, none⟩ (FetchOutcome.transportFail "boom") 7).lastFetched
        = some 5 ∧
    (fetchFeed ⟨some quakeFeedW, some 5, none⟩ (FetchOutcome.transportFail "boom") 7).lastError
        = some ⟨"boom", 7⟩ ∧
    handlerGet Method.GET
        (fetchFeed ⟨some quakeFeedW, some 5, none⟩ (FetchOutcome.transportFail "boom") 7)
        FetchOutcome.noFetch 9 =
      (fetchFeed ⟨some quakeFeedW, some 5, none⟩ (FetchOutcome.transportFail "boom") 7,
        GetResp.ok (some 5) quakeFeedW) := by
  have h := C2_failed_refresh_keeps_snapshot ⟨some quakeFeedW, some 5, none⟩
    (FetchOutcome.transportFail "boom") 7 quakeFeedW rfl rfl
  exact ⟨h.1, h.2.1, h.2.2.1, (h.2.2.2 rfl FetchOutcome.noFetch 9).1⟩

/-- C5 counterexample: a successfully transported payload that is valid
    JSON but does not match the feed schema (the bare number 42) is not
    rejected: the refresh records no FetchError, clears `lastError`, and
    installs the non-conforming payload as the cached snapshot. -/
theorem C5_schema_counterexample :
    matchesFeedSchema (Json.num 42) = false ∧
    fetchFeed ⟨none, none, some ⟨"old", 1⟩⟩ (FetchOutcome.response 200 (Except.ok (Json.num 42))) 5 =
      { cachedData := some (Json.num 42), lastFetched := some 5, lastError := none } :=
  ⟨rfl, rfl⟩

/-- C5 amended: a refresh records a FetchError (and leaves the snapshot
    untouched) exactly when the HTTP status is non-success, the transport
    fails, or the payload fails to parse as JSON; every successfully
    transported, successfully JSON-parsed payload becomes the cached
    snapshot, whether or not it matches the feed schema. -/
theorem C5_fetch_error_classification :
    ∀ (st : CacheState) (o : FetchOutcome) (now : ℚ),
      (outcomeFails o = true →
        (fetchFeed st o now).lastError = some ⟨failMsg o, now⟩ ∧
        (fetchFeed st o now).cachedData = st.cachedData) ∧
      (∀ (s : Nat) (j : Json), o = FetchOutcome.response s (Except.ok j) →
        statusOk s = true →
        (fetchFeed st o now).lastError = none ∧
        (fetchFeed st o now).cachedData = some j) := by
  intro st o now
  constructor
  · intro hfail
    rw [fetchFeed_fail st o now hfail]
    exact ⟨rfl, rfl⟩
  · intro s j ho hs
    rw [ho, fetchFeed_success st s j now hs]
    exact ⟨rfl, rfl⟩

theorem C5_fetch_error_classification_witness :
    (fetchFeed ⟨none, none, some ⟨"old", 1⟩⟩
        (FetchOutcome.response 200 (Except.ok (Json.num 42))) 5).lastError = none ∧
    (fetchFeed ⟨none, none, some ⟨"old", 1⟩⟩
        (FetchOutcome.response 200 (Except.ok (Json.num 42))) 5).cachedData =
      some (Json.num 42) :=
  (C5_fetch_error_classification ⟨none, none, some ⟨"old", 1⟩⟩
    (FetchOutcome.response 200 (Except.ok (Json.num 42))) 5).2 200 (Json.num 42) rfl rfl

/-- C7: a successful refresh atomically replaces the snapshot with the new
    payload, stamps `lastFetched` with the retrieval time, clears
    `lastError`, and the derived Event list of the stored payload has
    exactly one Event per payload feature. -/
theorem C7_successful_refresh_replaces :
    ∀ (st : CacheState) (j : Json) (s : Nat) (now : ℚ),
      statusOk s = true →
      fetchFeed st (FetchOutcome.response s (Except.ok j)) now =
        { cachedData := some j, lastFetched := some now, lastError := none } ∧
      (∀ fs : List Json, featuresExtract j = Except.ok fs →
        (fs.map (fun f => simplifyFeature f none)).length = fs.length) := by
  intro st j s now hs
  refine ⟨fetchFeed_success st s j now hs, ?_⟩
  intro fs _
  exact List.length_map fs _

theorem C7_successful_refresh_replaces_witness :
    fetchFeed ⟨none, none, some ⟨"old", 1⟩⟩ (FetchOutcome.response 200 (Except.ok quakeFeedW)) 9 =
      { cachedData := some quakeFeedW, lastFetched := some 9, lastError := none } ∧
    (([] : List Json).map (fun f => simplifyFeature f none)).length = ([] : List Json).length := by
  have h := C7_successful_refresh_replaces ⟨none, none, some ⟨"old", 1⟩⟩ quakeFeedW 200 9 rfl
  exact ⟨h.1, h.2 [] rfl⟩

/-- C9: the geodesic distance function is an identity at equal points and
    symmetric: `haversineKm lat lon lat lon = 0` for all coordinates, and
    `haversineKm` applied to a pair of points equals its application to the
    swapped pair. -/
theorem C9_haversine_identity_and_symmetric :
    (∀ lat lon : ℝ, haversineKm lat lon lat lon = 0) ∧
    (∀ a b c d : ℝ, haversineKm a b c d = haversineKm c d a b) := by
  constructor
  · intro lat lon
    unfold haversineKm
    rw [haversineA_self]
    norm_num [atan2, Real.sqrt_zero, Real.sqrt_one, Real.arctan_zero]
  · intro a b c d
    unfold haversineKm
    rw [haversineA_symm a b c d]

/-- C4 counterexample: a supplied `radiusKm` of 0 is used as the effective
    radius exactly as given — the code never applies the claimed
    "must be strictly greater than 0, else default 100" rule. -/
theorem C4_radius_counterexample :
    radiusOf (Json.obj [("radiusKm", Json.num 0)]) = 0 ∧
    radiusClaimedRule (Json.obj [("radiusKm", Json.num 0)]) = 100 ∧
    radiusOf (Json.obj [("radiusKm", Json.num 0)]) ≠
      radiusClaimedRule (Json.obj [("radiusKm", Json.num 0)]) := by
  refine ⟨rfl, by norm_num [radiusClaimedRule, getField], ?_⟩
  intro h
  rw [show radiusOf (Json.obj [("radiusKm", Json.num 0)]) = 0 from rfl] at h
  rw [show radiusClaimedRule (Json.obj [("radiusKm", Json.num 0)]) = 100 from
    by norm_num [radiusClaimedRule, getField]] at h
  norm_num at h

/-- C4 amended: the effective radius is a numeric `radiusKm` exactly as
    supplied (zero and negative values included), otherwise a numeric
    `radius_km` as supplied, and the default 100 only when neither numeric
    field is present (including non-object bodies). -/
theorem C4_radius_amended :
    ∀ body : Json, radiusOf body = radiusAmendedRule body := by
  intro body
  rcases body with _ | b | z | s | xs | flds
  · rfl
  · cases b <;> rfl
  · unfold radiusOf radiusAmendedRule
    split <;> rfl
  · unfold radiusOf radiusAmendedRule
    split <;> rfl
  · rfl
  · rfl

/-- C3: in the combined GET/POST variant of the handler, a plain GET
    request is let past the method check but only a POST branch exists, so
    the handler finishes without sending any response at all — the state
    is untouched and no 200 or 503 (nor anything else) is ever produced,
    for any cache state, body, or upstream outcome. -/
theorem C3_get_request_never_answered :
    ∀ (parsed : Except String Json) (st : CacheState) (fo : FetchOutcome)
      (go : GeoOutcome) (now : ℚ),
      handlerPost Method.GET parsed st fo go now = (st, none) := by
  intro parsed st fo go now
  rfl

/-- C10: a POST whose body yields no postal code responds 200 with
    `{refreshed: true, lastFetched, data}` built from the state after a
    best-effort refresh of an empty cache (`!cachedData`, a truthiness
    test) — even when that refresh failed and the data is still null, the
    response is this 200, never a 503. -/
theorem C10_post_without_postal_always_200 :
    ∀ (body : Json) (st : CacheState) (fo : FetchOutcome) (go : GeoOutcome) (now : ℚ),
      isNullJson (postalOf body) = true →
      handlerPost Method.POST (Except.ok body) st fo go now =
        ((if cacheTruthy st.cachedData then st else fetchFeed st fo now),
          some (PostResp.refreshed
            (if cacheTruthy st.cachedData then st else fetchFeed st fo now).lastFetched
            (if cacheTruthy st.cachedData then st else fetchFeed st fo now).cachedData)) ∧
      (∀ (lf : Option ℚ) (d : Option Json),
        PostResp.statusCode (PostResp.refreshed lf d) = 200) := by
  intro body st fo go now h
  refine ⟨?_, fun lf d => rfl⟩
  simp [handlerPost, h]

theorem C10_post_without_postal_always_200_witness :
    handlerPost Method.POST (Except.ok (Json.obj [])) ⟨none, none, none⟩
        (FetchOutcome.transportFail "down") (GeoOutcome.transportFail "x") 3 =
      (⟨none, none, some ⟨"down", 3⟩⟩, some (PostResp.refreshed none none)) ∧
    PostResp.statusCode (PostResp.refreshed none none) = 200 := by
  have h := C10_post_without_postal_always_200 (Json.obj []) ⟨none, none, none⟩
    (FetchOutcome.transportFail "down") (GeoOutcome.transportFail "x") 3 rfl
  exact ⟨h.1, h.2 none none⟩

/-- C6: with a postal code supplied, a geocode lookup that returns zero
    matches yields exactly the 404 "Postal code not found" response, an
    unreachable geocode service or a non-success geocode status yields a
    502 response, and the two trigger conditions are mutually exclusive,
    so neither response is ever produced by the other's cause. -/
theorem C6_geocode_outcome_classification :
    ∀ (body : Json) (st : CacheState) (fo : FetchOutcome) (go : GeoOutcome) (now : ℚ),
      isNullJson (postalOf body) = false →
      ((geoZeroMatches go = true →
          (handlerPost Method.POST (Except.ok body) st fo go now).2 =
            some PostResp.notFound) ∧
       (geoUpstream go = true →
          ∃ msg, (handlerPost Method.POST (Except.ok body) st fo go now).2 =
            some (PostResp.badGateway msg)) ∧
       ¬(geoZeroMatches go = true ∧ geoUpstream go = true) ∧
       PostResp.statusCode PostResp.notFound = 404 ∧
       (∀ msg, PostResp.statusCode (PostResp.badGateway msg) = 502)) := by
  intro body st fo go now hpostal
  rcases go with m | ⟨s, gb⟩
  · refine ⟨?_, ?_, ?_, rfl, fun msg => rfl⟩
    · intro h
      simp [geoZeroMatches] at h
    · intro _
      exact ⟨m, by simp [handlerPost, hpostal]⟩
    · rintro ⟨h, _⟩
      simp [geoZeroMatches] at h
  · cases hs : statusOk s
    · refine ⟨?_, ?_, ?_, rfl, fun msg => rfl⟩
      · intro h
        exfalso
        rcases gb with m | gj
        · simp [geoZeroMatches] at h
        · rcases gj with _ | b | x | s2 | xs | flds <;> simp [geoZeroMatches, hs] at h
          rcases xs with _ | ⟨j0, js⟩
          · simp [geoZeroMatches, hs] at h
          · simp [geoZeroMatches] at h
      · intro _
        exact ⟨"Geocode failed with status " ++ toString s, by simp [handlerPost, hpostal, hs]⟩
      · rintro ⟨h, _⟩
        rcases gb with m | gj
        · simp [geoZeroMatches] at h
        · rcases gj with _ | b | x | s2 | xs | flds <;> simp [geoZeroMatches, hs] at h
          rcases xs with _ | ⟨j0, js⟩
          · simp [geoZeroMatches, hs] at h
          · simp [geoZeroMatches] at h
    · refine ⟨?_, ?_, ?_, rfl, fun msg => rfl⟩
      · intro h
        rcases gb with m | gj
        · simp [geoZeroMatches] at h
        · rcases gj with _ | b | x | s2 | xs | flds <;> try simp [geoZeroMatches] at h
          rcases xs with _ | ⟨j0, js⟩
          · simp [handlerPost, hpostal, hs]
          · simp [geoZeroMatches] at h
      · intro h
        simp [geoUpstream, hs] at h
      · rintro ⟨_, h⟩
        simp [geoUpstream, hs] at h

theorem C6_geocode_outcome_classification_witness :
    (handlerPost Method.POST (Except.ok (Json.obj [("postalCode", Json.str "90210")]))
        ⟨some quakeFeedW, some 5, none⟩ FetchOutcome.noFetch
        (GeoOutcome.response 200 (Except.ok (Json.arr []))) 7).2 = some PostResp.notFound :=
  ((C6_geocode_outcome_classification (Json.obj [("postalCode", Json.str "90210")])
    ⟨some quakeFeedW, some 5, none⟩ FetchOutcome.noFetch
    (GeoOutcome.response 200 (Except.ok (Json.arr []))) 7 rfl).1) rfl

theorem simplifyFeature_none (f : Json) : simplifyFeature f none = baseEvent f := rfl

theorem simplifyFeature_some (f : Json) (c : Center) :
    simplifyFeature f (some c) =
      match (baseEvent f).lat, (baseEvent f).lon with
      | some la, some lo => { baseEvent f with distanceKm := centerDist c la lo }
      | _, _ => baseEvent f := by
  unfold simplifyFeature
  rcases h1 : (baseEvent f).lat with _ | la <;>
    rcases h2 : (baseEvent f).lon with _ | lo <;>
    simp [h1, h2]

theorem proximityResults_cons (f : Json) (fs : List Json) (c : Center) (r : ℚ) :
    proximityResults (f :: fs) c r =
      (if (simplifyFeature f (some c)).lat.isSome && (simplifyFeature f (some c)).lon.isSome
          && distOk (simplifyFeature f (some c)).distanceKm r then
        simplifyFeature f (some c) :: proximityResults fs c r
      else proximityResults fs c r) := by
  unfold proximityResults
  rw [List.map_cons, List.filter_cons]

theorem specProximityResults_cons (f : Json) (fs : List Json) (clat clon r : ℚ) :
    specProximityResults (f :: fs) clat clon r =
      (match (baseEvent f).lat, (baseEvent f).lon with
       | some la, some lo =>
           if haversineKm (clat : ℝ) (clon : ℝ) (la : ℝ) (lo : ℝ) ≤ (r : ℝ) then
             { baseEvent f with
               distanceKm := some (haversineKm (clat : ℝ) (clon : ℝ) (la : ℝ) (lo : ℝ)) } ::
               specProximityResults fs clat clon r
           else specProximityResults fs clat clon r
       | _, _ => specProximityResults fs clat clon r) := by
  unfold specProximityResults
  rw [List.map_cons, List.filterMap_cons]
  rcases h1 : (baseEvent f).lat with _ | la <;> rcases h2 : (baseEvent f).lon with _ | lo
  · simp [simplifyFeature_none, h1, h2]
  · simp [simplifyFeature_none, h1, h2]
  · simp [simplifyFeature_none, h1, h2]
  · simp only [simplifyFeature_none, h1, h2]
    by_cases hd : haversineKm (clat : ℝ) (clon : ℝ) (la : ℝ) (lo : ℝ) ≤ (r : ℝ)
    · simp [hd]
    · simp [hd]

/-- C1: the proximity result set is exactly the events of the snapshot
    that carry both coordinates and lie within the effective radius of the
    resolved center (by haversine distance), each extended with its
    computed `distanceKm`, kept in the snapshot's internal order; the
    reported count equals that list's length (the handler returns the
    list's `length` as `count` by construction). -/
theorem C1_proximity_result_set :
    ∀ (features : List Json) (clat clon r : ℚ),
      proximityResults features ⟨some clat, some clon⟩ r =
        specProximityResults features clat clon r ∧
      (proximityResults features ⟨some clat, some clon⟩ r).length =
        (specProximityResults features clat clon r).length := by
  intro features clat clon r
  have main : proximityResults features ⟨some clat, some clon⟩ r =
      specProximityResults features clat clon r := by
    induction features with
    | nil => rfl
    | cons f fs ih =>
      rw [proximityResults_cons, specProximityResults_cons,
        simplifyFeature_some f ⟨some clat, some clon⟩]
      rcases h1 : (baseEvent f).lat with _ | la <;>
        rcases h2 : (baseEvent f).lon with _ | lo
      · simp [h1, h2, ih]
      · simp [h1, h2, ih]
      · simp [h1, h2, ih]
      · by_cases hd : haversineKm (clat : ℝ) (clon : ℝ) (la : ℝ) (lo : ℝ) ≤ (r : ℝ)
        · simp [h1, h2, hd, centerDist, distOk, ih]
        · simp [h1, h2, hd, centerDist, distOk, ih]
  exact ⟨main, by rw [main]⟩

theorem simplifyFeature_fields (f : Json) (c : Option Center) :
    (simplifyFeature f c).lat = (baseEvent f).lat ∧
    (simplifyFeature f c).lon = (baseEvent f).lon ∧
    (simplifyFeature f c).depth = (baseEvent f).depth := by
  rcases c with _ | c
  · exact ⟨rfl, rfl, rfl⟩
  · rw [simplifyFeature_some f c]
    rcases h1 : (baseEvent f).lat with _ | la <;>
      rcases h2 : (baseEvent f).lon with _ | lo <;>
      simp [h1, h2]

/-- C8: a simplified Event takes its longitude from coordinate index 0,
    its latitude from index 1 and its depth from index 2, where a missing
    or non-numeric element yields null for that field (the `jsNumAt`
    accessor) rather than an error; in particular a 2-element coordinate
    array yields `depth = null` with valid lat and lon. -/
theorem C8_coordinate_extraction :
    ∀ (f : Json) (c : Option Center),
      (simplifyFeature f c).lon = jsNumAt (coordsOf f) 0 ∧
      (simplifyFeature f c).lat = jsNumAt (coordsOf f) 1 ∧
      (simplifyFeature f c).depth = jsNumAt (coordsOf f) 2 ∧
      (∀ a b : ℚ, coordsOf f = Json.arr [Json.num a, Json.num b] →
        (simplifyFeature f c).depth = none ∧
        (simplifyFeature f c).lat = some b ∧
        (simplifyFeature f c).lon = some a) := by
  intro f c
  obtain ⟨hla, hlo, hd⟩ := simplifyFeature_fields f c
  refine ⟨hlo, hla, hd, ?_⟩
  intro a b hcoords
  refine ⟨?_, ?_, ?_⟩
  · rw [hd]
    show jsNumAt (coordsOf f) 2 = none
    rw [hcoords]
    rfl
  · rw [hla]
    show jsNumAt (coordsOf f) 1 = some b
    rw [hcoords]
    rfl
  · rw [hlo]
    show jsNumAt (coordsOf f) 0 = some a
    rw [hcoords]
    rfl

theorem C8_coordinate_extraction_witness :
    (simplifyFeature featureTwoCoords none).depth = none ∧
    (simplifyFeature featureTwoCoords none).lat = some 2 ∧
    (simplifyFeature featureTwoCoords none).lon = some 1 :=
  (C8_coordinate_extraction featureTwoCoords none).2.2.2 1 2 rfl

end AftershockQuake
